import Mathlib

/-!
Shallow embedding of the accounting store of `app_ac`
(`src/unnamed/part_000`, the server-side accounting store), restricted to
the in-memory fallback path (the path taken when no MySQL pool is
configured).  The relational path issues SQL through a connection pool and
is not embedded; every claim below is settled against the fallback path,
which the spec requires to be behaviourally equivalent.

Modelling conventions:
* A JavaScript `Map<string, T>` is an association list `List (String × T)`
  in insertion order.  `Map.get` is first-match lookup, `Map.set` replaces
  the entry in place when the key is present and appends otherwise,
  `Map.delete` removes the keyed entry and reports whether it was present
  (on a store built through `mapSet` keys are unique, so removing every
  matching entry coincides with removing the single one).
* JavaScript numbers are embedded as `Int`; every numeric computation in
  the embedded code (`+`, `-`, `*`, `Math.max`) is exact at these
  operations, so no floating-point behaviour is lost for the properties
  considered here.
* `crypto.randomUUID()` and `new Date().toISOString()` are nondeterministic
  inputs; they are passed as explicit arguments (`id`, `now`).
* JavaScript string comparison (`<`, `>`) is lexicographic; it is embedded
  with the linear order on `String`.
* Thrown `Error`s are embedded with `Except String`; a store operation
  returns the result (or error) together with the store as it stands when
  the operation finishes or throws, mirroring mutation of the global
  `fallbackStore`.
-/

/-- `Map.get`: first entry with the given key. -/
def mapGet {α : Type} (k : String) : List (String × α) → Option α
  | [] => none
  | (k', v) :: rest => if k' = k then some v else mapGet k rest

/-- `Map.set`: replace in place when the key is present, append otherwise. -/
def mapSet {α : Type} (k : String) (v : α) : List (String × α) → List (String × α)
  | [] => [(k, v)]
  | (k', v') :: rest => if k' = k then (k, v) :: rest else (k', v') :: mapSet k v rest

/-- `Map.delete`: whether the key was present, and the entries without it. -/
def mapDelete {α : Type} (k : String) : List (String × α) → Bool × List (String × α)
  | [] => (false, [])
  | (k', v) :: rest =>
    let r := mapDelete k rest
    if k' = k then (true, r.2) else (r.1, (k', v) :: r.2)

/-- `Map.values()` in insertion order. -/
def mapValues {α : Type} (l : List (String × α)) : List α := l.map Prod.snd

/-- `Transaction` record of `@shared/accounting`. -/
structure Transaction where
  id : String
  date : String
  type : String
  description : String
  amount : Int
  approved : Bool
  createdBy : Option String
  createdAt : Option String
deriving DecidableEq, Repr

/-- `InventoryItem` record of `@shared/accounting`. -/
structure InventoryItem where
  id : String
  name : String
  updatedAt : String
  quantity : Int
  unit : String
  min : Int
deriving DecidableEq, Repr

/-- `Movement` record of `@shared/accounting`. -/
structure Movement where
  id : String
  itemId : String
  kind : String
  qty : Int
  unitPrice : Int
  total : Int
  party : String
  date : String
deriving DecidableEq, Repr

/-- `Project` record of `@shared/accounting`. -/
structure Project where
  id : String
  name : String
  location : String
  floors : Int
  units : Int
  createdAt : String
deriving DecidableEq, Repr

/-- `ProjectCost` record of `@shared/accounting`. -/
structure ProjectCost where
  id : String
  projectId : String
  type : String
  amount : Int
  date : String
  note : String
deriving DecidableEq, Repr

/-- `ProjectSale` record of `@shared/accounting` (fields the fallback path stores). -/
structure ProjectSale where
  id : String
  projectId : String
  unitNo : String
  buyer : String
  price : Int
  date : String
  terms : Option String
deriving DecidableEq, Repr

/-- The module-level `fallbackStore` object: one keyed map per entity type. -/
structure FallbackStore where
  transactions : List (String × Transaction)
  items : List (String × InventoryItem)
  movements : List (String × Movement)
  projects : List (String × Project)
  costs : List (String × ProjectCost)
  sales : List (String × ProjectSale)
deriving DecidableEq, Repr

/-- The fallback store at module initialisation: all six maps empty. -/
def emptyStore : FallbackStore :=
  { transactions := [], items := [], movements := [], projects := [], costs := [], sales := [] }

/-- `TransactionCreateInput` of `@shared/accounting`. -/
structure TransactionCreateInput where
  date : String
  type : String
  description : String
  amount : Int
  approved : Bool
  createdBy : Option String
deriving DecidableEq, Repr

/-- `InventoryItemCreateInput` of `@shared/accounting`. -/
structure InventoryItemCreateInput where
  name : String
  quantity : Int
  unit : String
  min : Int
  updatedAt : String
deriving DecidableEq, Repr

/-- `InventoryReceiptInput` of `@shared/accounting`. -/
structure InventoryReceiptInput where
  itemId : String
  qty : Int
  unitPrice : Int
  supplier : String
  date : String
  approved : Bool
  createdBy : Option String
deriving DecidableEq, Repr

/-- `InventoryIssueInput` of `@shared/accounting`. -/
structure InventoryIssueInput where
  itemId : String
  qty : Int
  unitPrice : Int
  project : String
  date : String
  approved : Bool
  createdBy : Option String
deriving DecidableEq, Repr

/-- `InventoryMovementResult` of `@shared/accounting`. -/
structure InventoryMovementResult where
  item : InventoryItem
  movement : Movement
  transaction : Transaction
deriving DecidableEq, Repr

/-- `ProjectCostCreateInput` of `@shared/accounting`. -/
structure ProjectCostCreateInput where
  projectId : String
  projectName : String
  type : String
  amount : Int
  date : String
  note : String
  approved : Bool
  createdBy : Option String
deriving DecidableEq, Repr

/-- `ProjectSaleCreateInput` of `@shared/accounting` (fields the fallback path reads). -/
structure ProjectSaleCreateInput where
  projectId : String
  projectName : String
  unitNo : String
  buyer : String
  price : Int
  date : String
  terms : Option String
  approved : Bool
  createdBy : Option String
deriving DecidableEq, Repr

/-- `createTransactionFallback`: build the transaction record and store it
under its id.  `id` stands for `crypto.randomUUID()` and `now` for
`new Date().toISOString()`. -/
def createTransactionFallback (input : TransactionCreateInput) (id now : String)
    (s : FallbackStore) : Transaction × FallbackStore :=
  let t : Transaction :=
    { id := id, date := input.date, type := input.type,
      description := input.description, amount := input.amount,
      approved := input.approved, createdBy := input.createdBy,
      createdAt := some now }
  (t, { s with transactions := mapSet t.id t s.transactions })

/-- Fallback branch of `approveTransaction`: look up the transaction, fail
with "Transaction not found" when absent, otherwise store a copy with
`approved := true` under the same key and return it. -/
def approveTransaction (id : String) (s : FallbackStore) :
    Except String Transaction × FallbackStore :=
  match mapGet id s.transactions with
  | none => (.error "Transaction not found", s)
  | some existing =>
    let updated : Transaction := { existing with approved := true }
    (.ok updated, { s with transactions := mapSet id updated s.transactions })

/-- Fallback branch of `deleteTransaction`: `Map.delete` runs first; when it
reports the key was absent the error is thrown (the delete was a no-op). -/
def deleteTransaction (id : String) (s : FallbackStore) :
    Except String Unit × FallbackStore :=
  let r := mapDelete id s.transactions
  let s' := { s with transactions := r.2 }
  if r.1 then (.ok (), s') else (.error "Transaction not found", s')

/-- Fallback branch of `createInventoryItem`. -/
def createInventoryItem (input : InventoryItemCreateInput) (id : String)
    (s : FallbackStore) : InventoryItem × FallbackStore :=
  let item : InventoryItem :=
    { id := id, name := input.name, quantity := input.quantity,
      unit := input.unit, min := input.min, updatedAt := input.updatedAt }
  (item, { s with items := mapSet item.id item s.items })

/-- Fallback branch of `deleteInventoryItem`: the result of
`items.delete(id)` is discarded (no existence check), then every movement
whose `itemId` matches is deleted (movements are keyed by their own id, so
the loop's keyed deletes amount to filtering on `itemId`). -/
def deleteInventoryItem (id : String) (s : FallbackStore) :
    Except String Unit × FallbackStore :=
  let items' := (mapDelete id s.items).2
  let movements' := s.movements.filter (fun p => p.2.itemId ≠ id)
  (.ok (), { s with items := items', movements := movements' })

/-- Synthesised description of a receipt transaction
(`شراء item من supplier (qty unit × unitPrice)`). -/
def receiptDescription (item : InventoryItem) (input : InventoryReceiptInput) : String :=
  "شراء " ++ item.name ++ " من " ++ input.supplier ++ " (" ++ toString input.qty
    ++ " " ++ item.unit ++ " × " ++ toString input.unitPrice ++ ")"

/-- Fallback branch of `recordInventoryReceipt`: look up the item (throw
"Inventory item not found" before any write when absent), store the item
with `quantity + qty` and `updatedAt := date`, append an `"in"` movement
with `total := qty * unitPrice`, and create the derived `"expense"`
transaction with `amount := movement.total`. -/
def recordInventoryReceipt (input : InventoryReceiptInput)
    (movementId txId now : String) (s : FallbackStore) :
    Except String InventoryMovementResult × FallbackStore :=
  match mapGet input.itemId s.items with
  | none => (.error "Inventory item not found", s)
  | some item =>
    let updated : InventoryItem :=
      { item with quantity := item.quantity + input.qty, updatedAt := input.date }
    let s1 := { s with items := mapSet updated.id updated s.items }
    let movement : Movement :=
      { id := movementId, itemId := input.itemId, kind := "in", qty := input.qty,
        unitPrice := input.unitPrice, total := input.qty * input.unitPrice,
        party := input.supplier, date := input.date }
    let s2 := { s1 with movements := mapSet movement.id movement s1.movements }
    let r := createTransactionFallback
      { date := input.date, type := "expense",
        description := receiptDescription item input,
        amount := movement.total, approved := input.approved,
        createdBy := input.createdBy } txId now s2
    (.ok { item := updated, movement := movement, transaction := r.1 }, r.2)

/-- Synthesised description of an issue transaction
(`صرف item لمشروع project (qty unit × unitPrice)`). -/
def issueDescription (item : InventoryItem) (input : InventoryIssueInput) : String :=
  "صرف " ++ item.name ++ " لمشروع " ++ input.project ++ " (" ++ toString input.qty
    ++ " " ++ item.unit ++ " × " ++ toString input.unitPrice ++ ")"

/-- Fallback branch of `recordInventoryIssue`: like the receipt, except the
quantity becomes `Math.max(0, quantity - qty)` and the movement is `"out"`
with the destination project as counterparty. -/
def recordInventoryIssue (input : InventoryIssueInput)
    (movementId txId now : String) (s : FallbackStore) :
    Except String InventoryMovementResult × FallbackStore :=
  match mapGet input.itemId s.items with
  | none => (.error "Inventory item not found", s)
  | some item =>
    let nextQuantity := max 0 (item.quantity - input.qty)
    let updated : InventoryItem :=
      { item with quantity := nextQuantity, updatedAt := input.date }
    let s1 := { s with items := mapSet updated.id updated s.items }
    let movement : Movement :=
      { id := movementId, itemId := input.itemId, kind := "out", qty := input.qty,
        unitPrice := input.unitPrice, total := input.qty * input.unitPrice,
        party := input.project, date := input.date }
    let s2 := { s1 with movements := mapSet movement.id movement s1.movements }
    let r := createTransactionFallback
      { date := input.date, type := "expense",
        description := issueDescription item input,
        amount := movement.total, approved := input.approved,
        createdBy := input.createdBy } txId now s2
    (.ok { item := updated, movement := movement, transaction := r.1 }, r.2)

/-- Fallback branch of `getProjectById`. -/
def getProjectById (id : String) (s : FallbackStore) : Option Project :=
  mapGet id s.projects

/-- Fallback branch of `deleteProject`: `projects.delete(id)` runs first and
its report decides "Project not found"; on success every cost and sale whose
`projectId` matches is deleted (each keyed by its own id, so the keyed
deletes amount to filtering on `projectId`). -/
def deleteProject (id : String) (s : FallbackStore) :
    Except String Unit × FallbackStore :=
  let r := mapDelete id s.projects
  if r.1 then
    (.ok (),
      { s with
        projects := r.2
        costs := s.costs.filter (fun p => p.2.projectId ≠ id)
        sales := s.sales.filter (fun p => p.2.projectId ≠ id) })
  else (.error "Project not found", { s with projects := r.2 })

/-- `projectCostTypeLabel`. -/
def projectCostTypeLabel (type : String) : String :=
  if type = "construction" then "إنشاء"
  else if type = "operation" then "تشغيل"
  else "مصروفات"

/-- Fallback branch of `createProjectCost`: store the cost, then create the
derived `"expense"` transaction with `amount := input.amount`. -/
def createProjectCost (input : ProjectCostCreateInput) (costId txId now : String)
    (s : FallbackStore) : (ProjectCost × Transaction) × FallbackStore :=
  let cost : ProjectCost :=
    { id := costId, projectId := input.projectId, type := input.type,
      amount := input.amount, date := input.date, note := input.note }
  let s1 := { s with costs := mapSet cost.id cost s.costs }
  let r := createTransactionFallback
    { date := input.date, type := "expense",
      description := "تكلفة " ++ projectCostTypeLabel input.type ++ " لمشروع "
        ++ input.projectName,
      amount := input.amount, approved := input.approved,
      createdBy := input.createdBy } txId now s1
  ((cost, r.1), r.2)

/-- Fallback branch of `createProjectSale`: store the sale, then create the
derived `"revenue"` transaction with `amount := input.price`. -/
def createProjectSale (input : ProjectSaleCreateInput) (saleId txId now : String)
    (s : FallbackStore) : (ProjectSale × Transaction) × FallbackStore :=
  let sale : ProjectSale :=
    { id := saleId, projectId := input.projectId, unitNo := input.unitNo,
      buyer := input.buyer, price := input.price, date := input.date,
      terms := input.terms }
  let s1 := { s with sales := mapSet sale.id sale s.sales }
  let r := createTransactionFallback
    { date := input.date, type := "revenue",
      description := "بيع وحدة " ++ input.unitNo ++ " من مشروع "
        ++ input.projectName ++ " إلى " ++ input.buyer,
      amount := input.price, approved := input.approved,
      createdBy := input.createdBy } txId now s1
  ((sale, r.1), r.2)

/-- `AccountingSnapshot` of `@shared/accounting`. -/
structure AccountingSnapshot where
  transactions : List Transaction
  items : List InventoryItem
  movements : List Movement
  projects : List Project
  costs : List ProjectCost
  sales : List ProjectSale
deriving DecidableEq, Repr

/-- The comparator of `sortTransactions` as a two-argument `Bool` predicate:
`txLe a b` holds exactly when the JavaScript comparator returns `≤ 0` on
`(a, b)`, i.e. when `a` may precede `b` (date descending, ties broken by
`createdAt ?? ""` descending).  A stable sort by that comparator is
`mergeSort` by this predicate. -/
def txLe (a b : Transaction) : Bool :=
  if a.date = b.date then
    decide ((b.createdAt.getD "") ≤ (a.createdAt.getD ""))
  else decide (b.date < a.date)

/-- `sortTransactions`: stable sort by date descending, then `createdAt`
descending. -/
def sortTransactions (l : List Transaction) : List Transaction :=
  l.mergeSort txLe

/-- The single-key descending comparator used by `sortByDateDesc` and the
inline item/project sorts, as a `Bool` predicate on an extracted key. -/
def keyDescLe {α : Type} (key : α → String) (a b : α) : Bool :=
  if key a = key b then true else decide (key b < key a)

/-- `sortByDateDesc` and its clones: stable sort by a string key, descending. -/
def sortDescBy {α : Type} (key : α → String) (l : List α) : List α :=
  l.mergeSort (keyDescLe key)

/-- `getFallbackSnapshot`: all six collections, each sorted per its rule. -/
def getFallbackSnapshot (s : FallbackStore) : AccountingSnapshot :=
  { transactions := sortTransactions (mapValues s.transactions)
    items := sortDescBy (fun i => i.updatedAt) (mapValues s.items)
    movements := sortDescBy (fun m => m.date) (mapValues s.movements)
    projects := sortDescBy (fun p => p.createdAt) (mapValues s.projects)
    costs := sortDescBy (fun c => c.date) (mapValues s.costs)
    sales := sortDescBy (fun sl => sl.date) (mapValues s.sales) }

/-- One fallback-store inventory operation, with its nondeterministic ids
supplied (claim C3 quantifies over sequences of these). -/
inductive StoreOp where
  | createItem (input : InventoryItemCreateInput) (id : String)
  | receipt (input : InventoryReceiptInput) (movementId txId now : String)
  | issue (input : InventoryIssueInput) (movementId txId now : String)
  | deleteItem (id : String)
deriving DecidableEq, Repr

/-- The store an operation leaves behind (also when it throws, since a
thrown fallback operation has mutated nothing). -/
def applyOp : StoreOp → FallbackStore → FallbackStore
  | .createItem input id, s => (createInventoryItem input id s).2
  | .receipt input m t n, s => (recordInventoryReceipt input m t n s).2
  | .issue input m t n, s => (recordInventoryIssue input m t n s).2
  | .deleteItem id, s => (deleteInventoryItem id s).2

/-- Run a sequence of operations left to right. -/
def applyOps (ops : List StoreOp) (s : FallbackStore) : FallbackStore :=
  ops.foldl (fun st op => applyOp op st) s

/-- Validity of an operation's input as claim C3 assumes it: items are
created with non-negative quantity and receipts/issues carry `qty > 0`. -/
def StoreOp.valid : StoreOp → Bool
  | .createItem input _ => decide (0 ≤ input.quantity)
  | .receipt input _ _ _ => decide (0 < input.qty)
  | .issue input _ _ _ => decide (0 < input.qty)
  | .deleteItem _ => true

/-- Every inventory item held in the store has non-negative quantity. -/
def itemsNonneg (s : FallbackStore) : Prop :=
  ∀ p ∈ s.items, 0 ≤ p.2.quantity

/-! ### Association-list facts about the embedded `Map` operations -/

theorem mapGet_mapSet_self {α : Type} (k : String) (v : α) (l : List (String × α)) :
    mapGet k (mapSet k v l) = some v := by
  induction l with
  | nil => simp [mapGet, mapSet]
  | cons p rest ih =>
    obtain ⟨k', v'⟩ := p
    by_cases h : k' = k <;> simp [mapGet, mapSet, h, ih]

theorem mapSet_mapSet_self {α : Type} (k : String) (v : α) (l : List (String × α)) :
    mapSet k v (mapSet k v l) = mapSet k v l := by
  induction l with
  | nil => simp [mapSet]
  | cons p rest ih =>
    obtain ⟨k', v'⟩ := p
    by_cases h : k' = k <;> simp [mapSet, h, ih]

theorem mapSet_of_mapGet_none {α : Type} {k : String} {l : List (String × α)}
    (h : mapGet k l = none) (v : α) : mapSet k v l = l ++ [(k, v)] := by
  induction l with
  | nil => simp [mapSet]
  | cons p rest ih =>
    obtain ⟨k', v'⟩ := p
    by_cases hk : k' = k
    · simp [mapGet, hk] at h
    · simp [mapGet, hk] at h
      simp [mapSet, hk, ih h]

theorem mapGet_eq_none_of_fst_false {α : Type} {k : String} {l : List (String × α)}
    (h : (mapDelete k l).1 = false) : mapGet k l = none := by
  induction l with
  | nil => simp [mapGet]
  | cons p rest ih =>
    obtain ⟨k', v'⟩ := p
    by_cases hk : k' = k
    · simp [mapDelete, hk] at h
    · simp [mapDelete, hk] at h
      simp [mapGet, hk]
      exact ih h

theorem mapDelete_fst_true_of_mapGet {α : Type} {k : String} {l : List (String × α)} {v : α}
    (h : mapGet k l = some v) : (mapDelete k l).1 = true := by
  induction l with
  | nil => simp [mapGet] at h
  | cons p rest ih =>
    obtain ⟨k', v'⟩ := p
    by_cases hk : k' = k <;> simp [mapGet, hk] at h <;> simp [mapDelete, hk]
    · exact ih h

theorem mapDelete_snd_of_mapGet_none {α : Type} {k : String} {l : List (String × α)}
    (h : mapGet k l = none) : (mapDelete k l).2 = l := by
  induction l with
  | nil => simp [mapDelete]
  | cons p rest ih =>
    obtain ⟨k', v'⟩ := p
    by_cases hk : k' = k
    · simp [mapGet, hk] at h
    · simp [mapGet, hk] at h
      simp [mapDelete, hk, ih h]

theorem mapGet_mapDelete_snd {α : Type} (k : String) (l : List (String × α)) :
    mapGet k (mapDelete k l).2 = none := by
  induction l with
  | nil => simp [mapDelete, mapGet]
  | cons p rest ih =>
    obtain ⟨k', v'⟩ := p
    by_cases hk : k' = k <;> simp [mapDelete, hk, mapGet, ih]

theorem mem_of_mem_mapDelete_snd {α : Type} {k : String} {l : List (String × α)}
    {p : String × α} (h : p ∈ (mapDelete k l).2) : p ∈ l := by
  induction l with
  | nil => simp [mapDelete] at h
  | cons q rest ih =>
    obtain ⟨k', v'⟩ := q
    by_cases hk : k' = k <;> simp [mapDelete, hk] at h
    · exact List.mem_cons_of_mem _ (ih h)
    · rcases h with h | h
      · simp [h]
      · exact List.mem_cons_of_mem _ (ih h)

theorem mem_mapSet {α : Type} {k : String} {v : α} {l : List (String × α)}
    {p : String × α} (h : p ∈ mapSet k v l) : p ∈ l ∨ p = (k, v) := by
  induction l with
  | nil => simp [mapSet] at h; simp [h]
  | cons q rest ih =>
    obtain ⟨k', v'⟩ := q
    by_cases hk : k' = k <;> simp [mapSet, hk] at h
    · rcases h with h | h
      · right; simp [h]
      · left; exact List.mem_cons_of_mem _ h
    · rcases h with h | h
      · left; simp [h]
      · rcases ih h with h' | h'
        · left; exact List.mem_cons_of_mem _ h'
        · right; exact h'

theorem mem_of_mapGet_eq_some {α : Type} {k : String} {l : List (String × α)} {v : α}
    (h : mapGet k l = some v) : (k, v) ∈ l := by
  induction l with
  | nil => simp [mapGet] at h
  | cons q rest ih =>
    obtain ⟨k', v'⟩ := q
    by_cases hk : k' = k <;> simp [mapGet, hk] at h
    · simp [hk, h]
    · exact List.mem_cons_of_mem _ (ih h)

theorem mapValues_append {α : Type} (l1 l2 : List (String × α)) :
    mapValues (l1 ++ l2) = mapValues l1 ++ mapValues l2 := by
  simp [mapValues]

/-! ### Concrete fixtures used by the witness theorems -/

/-- A concrete inventory item with stock 20. -/
def itemW : InventoryItem :=
  { id := "i1", name := "Cement", updatedAt := "2024-01-01", quantity := 20,
    unit := "bag", min := 2 }

/-- A store holding just `itemW`. -/
def storeW : FallbackStore := { emptyStore with items := [("i1", itemW)] }

/-- A concrete receipt: 10 units at price 5 into `itemW`. -/
def receiptW : InventoryReceiptInput :=
  { itemId := "i1", qty := 10, unitPrice := 5, supplier := "Acme",
    date := "2024-01-02", approved := false, createdBy := none }

/-- A concrete issue: 25 units at price 5 out of `itemW` (more than stocked). -/
def issueW : InventoryIssueInput :=
  { itemId := "i1", qty := 25, unitPrice := 5, project := "Tower",
    date := "2024-01-03", approved := false, createdBy := none }

/-- C1: a receipt on an existing item with `qty > 0` and `unitPrice > 0`
succeeds; the returned item's quantity is the previous quantity plus `qty`
and its `updatedAt` is the receipt date; a movement of kind `"in"` and a
transaction of type `"expense"` are appended to their maps, with
`movement.total = qty * unitPrice` and `transaction.amount = movement.total`. -/
theorem receipt_valid_updates (input : InventoryReceiptInput)
    (movementId txId now : String) (s : FallbackStore) (item : InventoryItem)
    (hitem : mapGet input.itemId s.items = some item)
    (_hq : 0 < input.qty) (_hp : 0 < input.unitPrice)
    (hm : mapGet movementId s.movements = none)
    (ht : mapGet txId s.transactions = none) :
    ∃ r s', recordInventoryReceipt input movementId txId now s = (.ok r, s') ∧
      r.item.quantity = item.quantity + input.qty ∧
      r.item.updatedAt = input.date ∧
      r.movement.kind = "in" ∧
      r.movement.total = input.qty * input.unitPrice ∧
      r.transaction.type = "expense" ∧
      r.transaction.amount = r.movement.total ∧
      mapValues s'.movements = mapValues s.movements ++ [r.movement] ∧
      mapValues s'.transactions = mapValues s.transactions ++ [r.transaction] := by
  simp only [recordInventoryReceipt, hitem, createTransactionFallback]
  refine ⟨_, _, rfl, rfl, rfl, rfl, rfl, rfl, rfl, ?_, ?_⟩
  · show mapValues (mapSet movementId _ s.movements) = _
    rw [mapSet_of_mapGet_none hm, mapValues_append]
    rfl
  · show mapValues (mapSet txId _ s.transactions) = _
    rw [mapSet_of_mapGet_none ht, mapValues_append]
    rfl

/-- Witness for C1: receiving 10 at price 5 into `itemW` (stock 20). -/
theorem receipt_valid_updates_witness :
    ∃ r s', recordInventoryReceipt receiptW "m1" "t1" "now1" storeW = (.ok r, s') ∧
      r.item.quantity = itemW.quantity + receiptW.qty ∧
      r.item.updatedAt = receiptW.date ∧
      r.movement.kind = "in" ∧
      r.movement.total = receiptW.qty * receiptW.unitPrice ∧
      r.transaction.type = "expense" ∧
      r.transaction.amount = r.movement.total ∧
      mapValues s'.movements = mapValues storeW.movements ++ [r.movement] ∧
      mapValues s'.transactions = mapValues storeW.transactions ++ [r.transaction] :=
  receipt_valid_updates receiptW "m1" "t1" "now1" storeW itemW (by rfl) (by decide)
    (by decide) (by rfl) (by rfl)

/-- C2: an issue on an existing item with `qty > 0` and `unitPrice > 0`
succeeds and the returned item's quantity is `max 0 (previous - qty)`; it is
never negative, and issuing more than the available quantity yields 0. -/
theorem issue_clamps_at_zero (input : InventoryIssueInput)
    (movementId txId now : String) (s : FallbackStore) (item : InventoryItem)
    (hitem : mapGet input.itemId s.items = some item)
    (_hq : 0 < input.qty) (_hp : 0 < input.unitPrice) :
    ∃ r s', recordInventoryIssue input movementId txId now s = (.ok r, s') ∧
      r.item.quantity = max 0 (item.quantity - input.qty) ∧
      0 ≤ r.item.quantity ∧
      (item.quantity < input.qty → r.item.quantity = 0) := by
  simp only [recordInventoryIssue, hitem, createTransactionFallback]
  refine ⟨_, _, rfl, rfl, le_max_left _ _, ?_⟩
  intro h
  show max 0 (item.quantity - input.qty) = 0
  have hx : item.quantity - input.qty ≤ 0 := by omega
  exact max_eq_left hx

/-- Witness for C2: issuing 25 from `itemW` (stock 20) clamps to 0. -/
theorem issue_clamps_at_zero_witness :
    ∃ r s', recordInventoryIssue issueW "m2" "t2" "now2" storeW = (.ok r, s') ∧
      r.item.quantity = max 0 (itemW.quantity - issueW.qty) ∧
      0 ≤ r.item.quantity ∧
      (itemW.quantity < issueW.qty → r.item.quantity = 0) :=
  issue_clamps_at_zero issueW "m2" "t2" "now2" storeW itemW (by rfl) (by decide) (by decide)

/-- C10: when an issue is clamped (requested `qty` exceeds the stocked
quantity), the created movement still records the full requested `qty` with
`total = qty * unitPrice`, the derived transaction's amount equals that
total, and the item's stored quantity becomes 0 — the ledger reflects the
request, not the smaller deduction. -/
theorem clamped_issue_records_requested_qty (input : InventoryIssueInput)
    (movementId txId now : String) (s : FallbackStore) (item : InventoryItem)
    (hitem : mapGet input.itemId s.items = some item)
    (hclamp : item.quantity < input.qty) :
    ∃ r s', recordInventoryIssue input movementId txId now s = (.ok r, s') ∧
      r.movement.qty = input.qty ∧
      r.movement.total = input.qty * input.unitPrice ∧
      r.transaction.amount = r.movement.total ∧
      r.item.quantity = 0 := by
  simp only [recordInventoryIssue, hitem, createTransactionFallback]
  refine ⟨_, _, rfl, rfl, rfl, rfl, ?_⟩
  show max 0 (item.quantity - input.qty) = 0
  have hx : item.quantity - input.qty ≤ 0 := by omega
  exact max_eq_left hx

/-- Witness for C10: issuing 25 from `itemW` (stock 20) records a movement
of 25 and a transaction of 125 while the stock drops to 0. -/
theorem clamped_issue_records_requested_qty_witness :
    ∃ r s', recordInventoryIssue issueW "m2" "t2" "now2" storeW = (.ok r, s') ∧
      r.movement.qty = issueW.qty ∧
      r.movement.total = issueW.qty * issueW.unitPrice ∧
      r.transaction.amount = r.movement.total ∧
      r.item.quantity = 0 :=
  clamped_issue_records_requested_qty issueW "m2" "t2" "now2" storeW itemW
    (by rfl) (by decide)

/-- C4: when the referenced item does not exist, both compound fallback
operations return the originating "Inventory item not found" error together
with the untouched store — no item change, movement, or transaction is
observable. -/
theorem compound_failure_is_atomic :
    (∀ (input : InventoryReceiptInput) (movementId txId now : String)
        (s : FallbackStore), mapGet input.itemId s.items = none →
      recordInventoryReceipt input movementId txId now s =
        (.error "Inventory item not found", s)) ∧
    (∀ (input : InventoryIssueInput) (movementId txId now : String)
        (s : FallbackStore), mapGet input.itemId s.items = none →
      recordInventoryIssue input movementId txId now s =
        (.error "Inventory item not found", s)) := by
  constructor
  · intro input movementId txId now s h
    simp only [recordInventoryReceipt, h]
  · intro input movementId txId now s h
    simp only [recordInventoryIssue, h]

/-- Witness for C4: on the empty store both operations fail with the
originating error and leave the store untouched. -/
theorem compound_failure_is_atomic_witness :
    recordInventoryReceipt receiptW "m1" "t1" "now1" emptyStore =
      (.error "Inventory item not found", emptyStore) ∧
    recordInventoryIssue issueW "m2" "t2" "now2" emptyStore =
      (.error "Inventory item not found", emptyStore) :=
  ⟨compound_failure_is_atomic.1 receiptW "m1" "t1" "now1" emptyStore (by rfl),
   compound_failure_is_atomic.2 issueW "m2" "t2" "now2" emptyStore (by rfl)⟩

/-- One operation with valid input preserves non-negativity of all stock. -/
theorem itemsNonneg_applyOp (op : StoreOp) (s : FallbackStore)
    (hv : op.valid = true) (hs : itemsNonneg s) : itemsNonneg (applyOp op s) := by
  cases op with
  | createItem input id =>
    intro p hp
    simp only [applyOp, createInventoryItem] at hp
    rcases mem_mapSet hp with h | h
    · exact hs p h
    · subst h
      simpa [StoreOp.valid] using hv
  | receipt input m t n =>
    intro p hp
    rcases hg : mapGet input.itemId s.items with _ | item
    · simp only [applyOp, recordInventoryReceipt, hg] at hp
      exact hs p hp
    · simp only [applyOp, recordInventoryReceipt, hg, createTransactionFallback] at hp
      rcases mem_mapSet hp with h | h
      · exact hs p h
      · subst h
        have hmem : 0 ≤ item.quantity := hs _ (mem_of_mapGet_eq_some hg)
        have hq : 0 < input.qty := by simpa [StoreOp.valid] using hv
        show 0 ≤ item.quantity + input.qty
        omega
  | issue input m t n =>
    intro p hp
    rcases hg : mapGet input.itemId s.items with _ | item
    · simp only [applyOp, recordInventoryIssue, hg] at hp
      exact hs p hp
    · simp only [applyOp, recordInventoryIssue, hg, createTransactionFallback] at hp
      rcases mem_mapSet hp with h | h
      · exact hs p h
      · subst h
        show (0 : Int) ≤ max 0 (item.quantity - input.qty)
        exact le_max_left _ _
  | deleteItem id =>
    intro p hp
    simp only [applyOp, deleteInventoryItem] at hp
    exact hs p (mem_of_mem_mapDelete_snd hp)

/-- Valid operation sequences preserve non-negativity of all stock. -/
theorem itemsNonneg_applyOps (ops : List StoreOp) (s : FallbackStore)
    (hv : ∀ op ∈ ops, op.valid = true) (hs : itemsNonneg s) :
    itemsNonneg (applyOps ops s) := by
  induction ops generalizing s with
  | nil => simpa [applyOps] using hs
  | cons op rest ih =>
    have hstep := itemsNonneg_applyOp op s (hv op (List.mem_cons_self _ _)) hs
    have : applyOps (op :: rest) s = applyOps rest (applyOp op s) := rfl
    rw [this]
    exact ih (applyOp op s) (fun o ho => hv o (List.mem_cons_of_mem _ ho)) hstep

/-- C3: starting from the initial (empty) fallback store, after any
sequence of `createInventoryItem`, `recordInventoryReceipt`,
`recordInventoryIssue` and `deleteInventoryItem` operations whose inputs
are valid (items created with quantity ≥ 0, receipts and issues with
`qty > 0`), every inventory item in the store has quantity ≥ 0. -/
theorem stock_nonneg_invariant (ops : List StoreOp)
    (hv : ∀ op ∈ ops, op.valid = true) :
    itemsNonneg (applyOps ops emptyStore) := by
  refine itemsNonneg_applyOps ops emptyStore hv ?_
  intro p hp
  simp [emptyStore] at hp

/-- A concrete item-creation input with stock 20. -/
def itemCreateW : InventoryItemCreateInput :=
  { name := "Cement", quantity := 20, unit := "bag", min := 2,
    updatedAt := "2024-01-01" }

/-- Witness for C3: create an item with stock 20, then issue 25 from a
store key that the creation produced; stock stays non-negative. -/
theorem stock_nonneg_invariant_witness :
    itemsNonneg (applyOps
      [StoreOp.createItem itemCreateW "i1",
       StoreOp.issue issueW "m2" "t2" "now2"] emptyStore) :=
  stock_nonneg_invariant _ (by decide)

theorem mapDelete_fst_false_of_mapGet_none {α : Type} {k : String}
    {l : List (String × α)} (h : mapGet k l = none) : (mapDelete k l).1 = false := by
  induction l with
  | nil => simp [mapDelete]
  | cons p rest ih =>
    obtain ⟨k', v'⟩ := p
    by_cases hk : k' = k
    · simp [mapGet, hk] at h
    · simp [mapGet, hk] at h
      simp [mapDelete, hk, ih h]

/-- C5: on the fallback path, `createProjectCost` stores the cost and
appends exactly one derived transaction with `amount = input.amount` and
type `"expense"`; `createProjectSale` stores the sale and appends exactly
one derived transaction with `amount = input.price` and type `"revenue"`.
Freshness of the generated ids stands in for `crypto.randomUUID()`. -/
theorem project_cost_sale_paired_transaction :
    (∀ (input : ProjectCostCreateInput) (costId txId now : String)
        (s : FallbackStore),
      mapGet costId s.costs = none → mapGet txId s.transactions = none →
      ∃ c t s', createProjectCost input costId txId now s = ((c, t), s') ∧
        t.amount = input.amount ∧ t.type = "expense" ∧
        mapValues s'.costs = mapValues s.costs ++ [c] ∧
        mapValues s'.transactions = mapValues s.transactions ++ [t]) ∧
    (∀ (input : ProjectSaleCreateInput) (saleId txId now : String)
        (s : FallbackStore),
      mapGet saleId s.sales = none → mapGet txId s.transactions = none →
      ∃ sl t s', createProjectSale input saleId txId now s = ((sl, t), s') ∧
        t.amount = input.price ∧ t.type = "revenue" ∧
        mapValues s'.sales = mapValues s.sales ++ [sl] ∧
        mapValues s'.transactions = mapValues s.transactions ++ [t]) := by
  constructor
  · intro input costId txId now s hc ht
    simp only [createProjectCost, createTransactionFallback]
    refine ⟨_, _, _, rfl, rfl, rfl, ?_, ?_⟩
    · show mapValues (mapSet costId _ s.costs) = _
      rw [mapSet_of_mapGet_none hc, mapValues_append]
      rfl
    · show mapValues (mapSet txId _ s.transactions) = _
      rw [mapSet_of_mapGet_none ht, mapValues_append]
      rfl
  · intro input saleId txId now s hsl ht
    simp only [createProjectSale, createTransactionFallback]
    refine ⟨_, _, _, rfl, rfl, rfl, ?_, ?_⟩
    · show mapValues (mapSet saleId _ s.sales) = _
      rw [mapSet_of_mapGet_none hsl, mapValues_append]
      rfl
    · show mapValues (mapSet txId _ s.transactions) = _
      rw [mapSet_of_mapGet_none ht, mapValues_append]
      rfl

/-- A concrete project-cost input. -/
def costInputW : ProjectCostCreateInput :=
  { projectId := "p1", projectName := "Tower", type := "construction",
    amount := 100, date := "2024-02-01", note := "", approved := false,
    createdBy := none }

/-- A concrete project-sale input. -/
def saleInputW : ProjectSaleCreateInput :=
  { projectId := "p1", projectName := "Tower", unitNo := "A1",
    buyer := "Bob", price := 250, date := "2024-02-02", terms := none,
    approved := false, createdBy := none }

/-- Witness for C5: cost and sale creation on the empty store. -/
theorem project_cost_sale_paired_transaction_witness :
    (∃ c t s', createProjectCost costInputW "c1" "t1" "now1" emptyStore = ((c, t), s') ∧
      t.amount = costInputW.amount ∧ t.type = "expense" ∧
      mapValues s'.costs = mapValues emptyStore.costs ++ [c] ∧
      mapValues s'.transactions = mapValues emptyStore.transactions ++ [t]) ∧
    (∃ sl t s', createProjectSale saleInputW "sl1" "t2" "now2" emptyStore = ((sl, t), s') ∧
      t.amount = saleInputW.price ∧ t.type = "revenue" ∧
      mapValues s'.sales = mapValues emptyStore.sales ++ [sl] ∧
      mapValues s'.transactions = mapValues emptyStore.transactions ++ [t]) :=
  ⟨project_cost_sale_paired_transaction.1 costInputW "c1" "t1" "now1" emptyStore
      (by rfl) (by rfl),
   project_cost_sale_paired_transaction.2 saleInputW "sl1" "t2" "now2" emptyStore
      (by rfl) (by rfl)⟩

/-- Counterexample to C6: the fallback `deleteInventoryItem` is NOT
existence-checked.  On the empty store, deleting the absent id "ghost"
succeeds (returns unit, no NotFound error) and leaves the store as it was,
contradicting the claim that a missing key fails with NotFound. -/
theorem deleteInventoryItem_missing_id_succeeds :
    mapGet "ghost" emptyStore.items = none ∧
    deleteInventoryItem "ghost" emptyStore = (.ok (), emptyStore) :=
  ⟨rfl, rfl⟩

/-- C6 (amended): the fallback `deleteTransaction` is existence-checked —
a missing id fails with "Transaction not found" leaving the store
unchanged, a present id is removed.  The fallback `deleteInventoryItem`
never fails: it always returns successfully; a present id is removed, and
a missing id leaves the items map untouched. -/
theorem delete_ops_existence_semantics :
    (∀ (id : String) (s : FallbackStore), mapGet id s.transactions = none →
      deleteTransaction id s = (.error "Transaction not found", s)) ∧
    (∀ (id : String) (s : FallbackStore) (t : Transaction),
      mapGet id s.transactions = some t →
      (deleteTransaction id s).1 = .ok () ∧
      mapGet id (deleteTransaction id s).2.transactions = none) ∧
    (∀ (id : String) (s : FallbackStore),
      (deleteInventoryItem id s).1 = .ok () ∧
      mapGet id (deleteInventoryItem id s).2.items = none ∧
      (mapGet id s.items = none → (deleteInventoryItem id s).2.items = s.items)) := by
  refine ⟨?_, ?_, ?_⟩
  · intro id s h
    simp only [deleteTransaction, mapDelete_fst_false_of_mapGet_none h,
      mapDelete_snd_of_mapGet_none h, Bool.false_eq_true, if_false]
  · intro id s t h
    constructor
    · simp only [deleteTransaction, mapDelete_fst_true_of_mapGet h, if_true]
    · simp only [deleteTransaction, mapDelete_fst_true_of_mapGet h, if_true]
      exact mapGet_mapDelete_snd id s.transactions
  · intro id s
    refine ⟨rfl, ?_, ?_⟩
    · exact mapGet_mapDelete_snd id s.items
    · intro h
      exact mapDelete_snd_of_mapGet_none h

/-- A concrete unapproved transaction. -/
def txW : Transaction :=
  { id := "t1", date := "2024-01-05", type := "revenue", description := "sale",
    amount := 7, approved := false, createdBy := none, createdAt := some "2024-01-05T10:00:00Z" }

/-- A store holding just `txW`. -/
def storeTxW : FallbackStore := { emptyStore with transactions := [("t1", txW)] }

/-- Witness for the amended C6: a missing transaction id fails, a present
one is removed, and `deleteInventoryItem` succeeds on a missing id. -/
theorem delete_ops_existence_semantics_witness :
    deleteTransaction "t9" storeTxW = (.error "Transaction not found", storeTxW) ∧
    ((deleteTransaction "t1" storeTxW).1 = .ok () ∧
      mapGet "t1" (deleteTransaction "t1" storeTxW).2.transactions = none) ∧
    ((deleteInventoryItem "ghost2" storeTxW).1 = .ok () ∧
      mapGet "ghost2" (deleteInventoryItem "ghost2" storeTxW).2.items = none ∧
      (deleteInventoryItem "ghost2" storeTxW).2.items = storeTxW.items) :=
  ⟨delete_ops_existence_semantics.1 "t9" storeTxW (by rfl),
   delete_ops_existence_semantics.2.1 "t1" storeTxW txW (by rfl),
   (delete_ops_existence_semantics.2.2 "ghost2" storeTxW).1,
   (delete_ops_existence_semantics.2.2 "ghost2" storeTxW).2.1,
   (delete_ops_existence_semantics.2.2 "ghost2" storeTxW).2.2 (by rfl)⟩

/-- C7: the fallback `deleteProject` fails with "Project not found" on a
missing id, leaving the store unchanged; on a present id it succeeds,
afterwards the project lookup returns nothing and no stored cost or sale
references the deleted project id. -/
theorem deleteProject_cascades (id : String) (s : FallbackStore) :
    (mapGet id s.projects = none →
      deleteProject id s = (.error "Project not found", s)) ∧
    (∀ p, mapGet id s.projects = some p →
      ∃ s', deleteProject id s = (.ok (), s') ∧
        getProjectById id s' = none ∧
        (∀ c ∈ mapValues s'.costs, c.projectId ≠ id) ∧
        (∀ sl ∈ mapValues s'.sales, sl.projectId ≠ id)) := by
  constructor
  · intro h
    simp only [deleteProject, mapDelete_fst_false_of_mapGet_none h,
      mapDelete_snd_of_mapGet_none h, Bool.false_eq_true, if_false]
  · intro p h
    simp only [deleteProject, mapDelete_fst_true_of_mapGet h, if_true]
    refine ⟨_, rfl, ?_, ?_, ?_⟩
    · exact mapGet_mapDelete_snd id s.projects
    · intro c hc
      simp only [mapValues, List.mem_map] at hc
      obtain ⟨q, hq, rfl⟩ := hc
      simpa using (List.mem_filter.mp hq).2
    · intro sl hsl
      simp only [mapValues, List.mem_map] at hsl
      obtain ⟨q, hq, rfl⟩ := hsl
      simpa using (List.mem_filter.mp hq).2

/-- A concrete project. -/
def projW : Project :=
  { id := "p1", name := "Tower", location := "X", floors := 3, units := 6,
    createdAt := "2024-01-01" }

/-- A concrete cost of `projW`. -/
def costW1 : ProjectCost :=
  { id := "c1", projectId := "p1", type := "construction", amount := 10,
    date := "2024-01-02", note := "" }

/-- A concrete cost of another project. -/
def costW2 : ProjectCost :=
  { id := "c2", projectId := "p2", type := "operation", amount := 4,
    date := "2024-01-03", note := "" }

/-- A concrete sale of `projW`. -/
def saleW1 : ProjectSale :=
  { id := "sl1", projectId := "p1", unitNo := "A1", buyer := "Bob",
    price := 30, date := "2024-01-04", terms := none }

/-- A store with `projW`, its cost and sale, and an unrelated cost. -/
def storeProjW : FallbackStore :=
  { emptyStore with
    projects := [("p1", projW)]
    costs := [("c1", costW1), ("c2", costW2)]
    sales := [("sl1", saleW1)] }

/-- Witness for C7: deleting project "p1" removes it with its cost and
sale, and a missing id fails. -/
theorem deleteProject_cascades_witness :
    deleteProject "p9" storeProjW = (.error "Project not found", storeProjW) ∧
    (∃ s', deleteProject "p1" storeProjW = (.ok (), s') ∧
      getProjectById "p1" s' = none ∧
      (∀ c ∈ mapValues s'.costs, c.projectId ≠ "p1") ∧
      (∀ sl ∈ mapValues s'.sales, sl.projectId ≠ "p1")) :=
  ⟨(deleteProject_cascades "p9" storeProjW).1 (by rfl),
   (deleteProject_cascades "p1" storeProjW).2 projW (by rfl)⟩

/-- C8: the fallback `approveTransaction` flips `approved` to true leaving
every other field unchanged, fails with "Transaction not found" on a
missing id, and is idempotent — applying it a second time returns the same
transaction and the same store. -/
theorem approveTransaction_idempotent (id : String) (s : FallbackStore) :
    (mapGet id s.transactions = none →
      approveTransaction id s = (.error "Transaction not found", s)) ∧
    (∀ t, mapGet id s.transactions = some t →
      ∃ u s', approveTransaction id s = (.ok u, s') ∧
        u.approved = true ∧
        u.id = t.id ∧ u.date = t.date ∧ u.type = t.type ∧
        u.description = t.description ∧ u.amount = t.amount ∧
        u.createdBy = t.createdBy ∧ u.createdAt = t.createdAt ∧
        approveTransaction id s' = (.ok u, s')) := by
  constructor
  · intro h
    simp only [approveTransaction, h]
  · intro t h
    simp only [approveTransaction, h]
    refine ⟨_, _, rfl, rfl, rfl, rfl, rfl, rfl, rfl, rfl, rfl, ?_⟩
    simp only [approveTransaction, mapGet_mapSet_self]
    rw [mapSet_mapSet_self]

/-- Witness for C8: approving `txW` in `storeTxW` twice equals approving it
once, and a missing id fails. -/
theorem approveTransaction_idempotent_witness :
    approveTransaction "t9" storeTxW = (.error "Transaction not found", storeTxW) ∧
    (∃ u s', approveTransaction "t1" storeTxW = (.ok u, s') ∧
      u.approved = true ∧
      u.id = txW.id ∧ u.date = txW.date ∧ u.type = txW.type ∧
      u.description = txW.description ∧ u.amount = txW.amount ∧
      u.createdBy = txW.createdBy ∧ u.createdAt = txW.createdAt ∧
      approveTransaction "t1" s' = (.ok u, s')) :=
  ⟨(approveTransaction_idempotent "t9" storeTxW).1 (by rfl),
   (approveTransaction_idempotent "t1" storeTxW).2 txW (by rfl)⟩

/-- The comparator `txLe` is transitive. -/
theorem txLe_trans (a b c : Transaction) (hab : txLe a b = true)
    (hbc : txLe b c = true) : txLe a c = true := by
  simp only [txLe] at hab hbc ⊢
  by_cases h1 : a.date = b.date <;> by_cases h2 : b.date = c.date
  · rw [if_pos h1] at hab
    rw [if_pos h2] at hbc
    rw [if_pos (h1.trans h2)]
    simp only [decide_eq_true_eq] at *
    exact le_trans hbc hab
  · rw [if_pos h1] at hab
    rw [if_neg h2] at hbc
    have h3 : ¬ a.date = c.date := fun hx => h2 (h1.symm.trans hx)
    rw [if_neg h3]
    simp only [decide_eq_true_eq] at *
    rw [h1]
    exact hbc
  · rw [if_neg h1] at hab
    rw [if_pos h2] at hbc
    simp only [decide_eq_true_eq] at *
    have hlt : c.date < a.date := h2 ▸ hab
    rw [if_neg (by exact fun hx => absurd hx (ne_of_gt hlt))]
    simpa using hlt
  · rw [if_neg h1] at hab
    rw [if_neg h2] at hbc
    simp only [decide_eq_true_eq] at *
    have hlt : c.date < a.date := lt_trans hbc hab
    rw [if_neg (by exact fun hx => absurd hx (ne_of_gt hlt))]
    simpa using hlt

/-- The comparator `txLe` is total. -/
theorem txLe_total (a b : Transaction) : (txLe a b || txLe b a) = true := by
  simp only [txLe]
  by_cases h : a.date = b.date
  · rw [if_pos h, if_pos h.symm]
    simp only [Bool.or_eq_true, decide_eq_true_eq]
    exact le_total _ _
  · have h' : ¬ b.date = a.date := fun hx => h hx.symm
    rw [if_neg h, if_neg h']
    simp only [Bool.or_eq_true, decide_eq_true_eq]
    exact (Ne.lt_or_lt h).symm

/-- A minimal transaction dated `d`, used in the C9 example. -/
def txD (d : String) : Transaction :=
  { id := d, date := d, type := "expense", description := "", amount := 0,
    approved := false, createdBy := none, createdAt := none }

/-- C9: the snapshot's transaction list is a permutation of the stored
transactions and is sorted by the descending (date, creation-timestamp)
comparator; on the example dates 2024-01-01, 2024-03-01, 2024-02-01 the
snapshot returns 2024-03-01, 2024-02-01, 2024-01-01. -/
theorem snapshot_transactions_sorted (s : FallbackStore) :
    ((getFallbackSnapshot s).transactions).Perm (mapValues s.transactions) ∧
    List.Sorted (fun a b => txLe a b = true) (getFallbackSnapshot s).transactions ∧
    (getFallbackSnapshot
        { emptyStore with
          transactions := [("a", txD "2024-01-01"), ("b", txD "2024-03-01"),
            ("c", txD "2024-02-01")] }).transactions =
      [txD "2024-03-01", txD "2024-02-01", txD "2024-01-01"] := by
  refine ⟨List.mergeSort_perm _ _, ?_, ?_⟩
  · exact List.sorted_mergeSort (fun a b c => txLe_trans a b c) txLe_total _
  · simp +decide [getFallbackSnapshot, sortTransactions, sortDescBy, mapValues,
      List.mergeSort, List.merge, txD, txLe, emptyStore]
